import Mathlib

/-!
Shallow embedding of `src/static/js/regional_report.js` (client-side logic for
the anonymous regional disease report page) together with proofs about its
rendering functions.

JavaScript conventions modelled explicitly:
* An absent object field is `Option.none`; a present field is `some v`.
* JS truthiness: the number `0`, the empty string `""`, `null`/`undefined`
  are falsy; every other number / non-empty string is truthy.
* `a || b` evaluates to `a` when `a` is truthy, otherwise to `b`.
* `x.toFixed(1)` rounds to one decimal (modelled over ℚ, round half up),
  producing a string with exactly one digit after the decimal point.
-/

namespace RegionalReport

/-! ### JS truthiness helpers -/

/-- Truthiness of an optional numeric field: absent (`undefined`) and `0` are
falsy, any other number is truthy. -/
def truthyNum : Option ℚ → Bool
  | Option.none => false
  | Option.some x => decide (x ≠ 0)

/-- JS `o || d` for an optional string `o`: the empty string and an absent
field both fall through to the default `d`. -/
def jsOrStr (o : Option String) (d : String) : String :=
  match o with
  | Option.none => d
  | Option.some s => if s = "" then d else s

/-! ### Severity index (source lines 17–26)

"DISEASE_SEVERITY_INDEX = { 'Healthy': 0, 'Sooty Mould': 1, 'Powdery Mildew': 2,
 'Gall Midge': 2, 'Anthracnose': 3, 'Bacterial Canker': 3, 'Cutting Weevil': 3,
 'die back': 3 }" -/

def DISEASE_SEVERITY_INDEX : List (String × ℕ) :=
  [("Healthy", 0), ("Sooty Mould", 1), ("Powdery Mildew", 2), ("Gall Midge", 2),
   ("Anthracnose", 3), ("Bacterial Canker", 3), ("Cutting Weevil", 3), ("die back", 3)]

/-- JS property lookup `DISEASE_SEVERITY_INDEX[disease]`: `some rank` when the
disease is a key of the object, `none` (`undefined`) otherwise. -/
def sevLookup (d : String) : Option ℕ :=
  DISEASE_SEVERITY_INDEX.lookup d

/-- The JS value `DISEASE_SEVERITY_INDEX[disease] || 'N/A'` (line 333): either
a (truthy, hence nonzero) number, or the string literal. -/
inductive SevDisplay where
  | num (n : ℕ)
  | na
  deriving DecidableEq

/-- `const severity = DISEASE_SEVERITY_INDEX[disease] || 'N/A'` (line 333).
An absent key yields `undefined` (falsy) and rank `0` is the falsy number, so
both produce the string; a nonzero rank is truthy and is kept. -/
def sevValue (d : String) : SevDisplay :=
  match sevLookup d with
  | Option.some n => if n = 0 then SevDisplay.na else SevDisplay.num n
  | Option.none => SevDisplay.na

/-- The text rendered into the Severity Index table cell, `${severity}`
(line 341): the number printed in decimal, or the string "N/A". -/
def sevCellText (d : String) : String :=
  match sevValue d with
  | SevDisplay.num n => toString n
  | SevDisplay.na => "N/A"

/-- `severity >= 3 ? 'red' : severity >= 2 ? 'orange' : 'green'` (line 334).
When `severity` is the string "N/A", both JS comparisons coerce it to `NaN`
and evaluate to `false`, so the result is green. -/
def severityColor : SevDisplay → String
  | SevDisplay.num n => if n ≥ 3 then "red" else if n ≥ 2 then "orange" else "green"
  | SevDisplay.na => "green"

/-- Every rank stored in the severity index is at most 3. -/
theorem sevLookup_le_three (d : String) (n : ℕ) (h : sevLookup d = Option.some n) :
    n ≤ 3 := by
  simp only [sevLookup, DISEASE_SEVERITY_INDEX, List.lookup] at h
  repeat' split at h
  all_goals simp_all
  all_goals omega

/-! ### Farm locations (source lines 44–76, `loadFarmLocations`) -/

/-- A farm record as returned by the saved-locations API.  Coordinates are
optional fields; an absent coordinate is `none`. -/
structure Farm where
  farm_name : String
  latitude : Option ℚ
  longitude : Option ℚ
  deriving DecidableEq

/-- `savedFarms = farms.filter(f => f.latitude && f.longitude)` (line 52): the
farms kept for the selection dropdown. -/
def loadFarmLocations (farms : List Farm) : List Farm :=
  farms.filter (fun f => truthyNum f.latitude && truthyNum f.longitude)

/-! ### Percentage formatting (source lines 294 and 332)

Both the chart tooltip and the summary table compute
`((count / total) * 100).toFixed(1) + '%'` when `total > 0`, else `'0%'`. -/

/-- `x.toFixed(1)`, as the number of tenths: the value rounded to one decimal
place (round half up, over exact rationals). -/
def toFixed1Tenths (x : ℚ) : ℤ :=
  round (x * 10)

/-- The exact value `(count / total) * 100` computed by both call sites. -/
def pctValue (count total : ℕ) : ℚ :=
  ((count : ℚ) / (total : ℚ)) * 100

/-- Renders a nonnegative number of tenths as a decimal string with one digit
after the point, as `toFixed(1)` does (e.g. `333 ↦ "33.3"`, `1000 ↦ "100.0"`). -/
def tenthsToString (t : ℤ) : String :=
  toString (t / 10) ++ "." ++ toString (t % 10)

/-- `totalTrees > 0 ? ((count / totalTrees) * 100).toFixed(1) + '%' : '0%'`
(line 332, summary table row percentage). -/
def pctString (count total : ℕ) : String :=
  if 0 < total then tenthsToString (toFixed1Tenths (pctValue count total)) ++ "%" else "0%"

/-- The chart tooltip label percentage (lines 293–294): the total is recomputed
as the sum of the dataset, then the same formula as the table. -/
def tooltipPctString (rawCount : ℕ) (data : List ℕ) : String :=
  let total := data.sum
  if 0 < total then tenthsToString (toFixed1Tenths (pctValue rawCount total)) ++ "%" else "0%"

/-! ### Summary table (source lines 308–358, `renderSummaryTable`) -/

/-- One rendered body row of the summary table. -/
structure Row where
  disease : String
  count : ℕ
  percentage : String
  severityText : String
  color : String
  deriving DecidableEq

/-- Stable insertion of an entry into a count-descending list: the new entry
goes before the first strictly smaller count, after all earlier entries with
an equal or larger count. -/
def insertDesc (x : String × ℕ) : List (String × ℕ) → List (String × ℕ)
  | [] => [x]
  | y :: ys => if y.2 < x.2 then x :: y :: ys else y :: insertDesc x ys

/-- `Object.entries(distributionData).sort(([, a], [, b]) => b - a)`
(lines 328–329): stable sort by count, descending (the comparator returns a
negative number exactly when the first count is larger; `Array.prototype.sort`
is stable, and the stable sorted order is unique, so a stable insertion sort
computes it). -/
def sortedEntries (d : List (String × ℕ)) : List (String × ℕ) :=
  d.foldr insertDesc []

theorem insertDesc_perm (x : String × ℕ) (l : List (String × ℕ)) :
    List.Perm (insertDesc x l) (x :: l) := by
  induction l with
  | nil => simp [insertDesc]
  | cons y ys ih =>
      unfold insertDesc
      split
      · exact List.Perm.refl _
      · exact (ih.cons y).trans (List.Perm.swap x y ys)

theorem sortedEntries_perm (d : List (String × ℕ)) : List.Perm (sortedEntries d) d := by
  induction d with
  | nil => simp [sortedEntries]
  | cons x xs ih =>
      exact (insertDesc_perm x (sortedEntries xs)).trans (ih.cons x)

theorem insertDesc_pairwise (x : String × ℕ) (l : List (String × ℕ))
    (h : l.Pairwise (fun a b => b.2 ≤ a.2)) :
    (insertDesc x l).Pairwise (fun a b => b.2 ≤ a.2) := by
  induction l with
  | nil => simp [insertDesc]
  | cons y ys ih =>
      rcases List.pairwise_cons.mp h with ⟨hy, hys⟩
      unfold insertDesc
      split
      · refine List.pairwise_cons.mpr ⟨?_, h⟩
        intro b hb
        rcases List.mem_cons.mp hb with hb | hb
        · subst hb; omega
        · have := hy b hb; omega
      · refine List.pairwise_cons.mpr ⟨?_, ih hys⟩
        intro b hb
        have hb2 : b ∈ x :: ys := (insertDesc_perm x ys).mem_iff.mp hb
        rcases List.mem_cons.mp hb2 with hb3 | hb3
        · subst hb3; omega
        · exact hy b hb3

theorem sortedEntries_pairwise (d : List (String × ℕ)) :
    (sortedEntries d).Pairwise (fun a b => b.2 ≤ a.2) := by
  induction d with
  | nil => simp [sortedEntries]
  | cons x xs ih =>
      exact insertDesc_pairwise x (sortedEntries xs) ih

/-- The body rows produced by `renderSummaryTable` (lines 308–344): one row per
distribution entry, in sorted order, with percentage, severity text and
severity color per the source formulas. -/
def renderSummaryTable (d : List (String × ℕ)) : List Row :=
  let totalTrees := (d.map Prod.snd).sum
  (sortedEntries d).map (fun e =>
    { disease := e.1
      count := e.2
      percentage := pctString e.2 totalTrees
      severityText := sevCellText e.1
      color := severityColor (sevValue e.1) })

/-- The trailing TOTAL row (lines 347–352): grand total and the literal
string `100.0%`, independent of the body rows. -/
def totalRow (d : List (String × ℕ)) : Row :=
  { disease := "TOTAL"
    count := (d.map Prod.snd).sum
    percentage := "100.0%"
    severityText := "-"
    color := "" }

/-! ### Chart instance lifecycle (source lines 13, 230–246, 262–266)

The page holds one mutable variable `regionalChartInstance` (initially `null`).
`renderRegionalChart` destroys the referenced chart (when the variable is set)
before constructing a new `Chart`; the empty-result and catch paths of
`loadRegionalStatistics` destroy it without creating a new one.  We track the
variable together with the number of live (constructed, not yet destroyed)
chart objects in the page. -/

/-- Primitive chart operations performed by the source. -/
inductive ChartEv where
  | destroy
  | create
  deriving DecidableEq

/-- The chart-related page state: whether `regionalChartInstance` is non-null,
whether the chart object it references is still live (not destroyed), and how
many live chart objects exist in the page. -/
structure ChartState where
  instanceSet : Bool
  instanceLive : Bool
  liveCharts : ℕ
  deriving DecidableEq

/-- `regionalChartInstance.destroy()`: the referenced chart object stops being
live (a second destroy on an already-destroyed chart changes nothing). -/
def destroyStep (s : ChartState) : ChartState :=
  { instanceSet := s.instanceSet
    instanceLive := false
    liveCharts := if s.instanceSet && s.instanceLive then s.liveCharts - 1 else s.liveCharts }

/-- `regionalChartInstance = new Chart(...)`: one more live chart object, and
the variable now references it. -/
def createStep (s : ChartState) : ChartState :=
  { instanceSet := true, instanceLive := true, liveCharts := s.liveCharts + 1 }

def applyEv (s : ChartState) : ChartEv → ChartState
  | ChartEv.destroy => destroyStep s
  | ChartEv.create => createStep s

/-- All states reached while executing a sequence of chart operations,
including the initial one. -/
def runStates (s : ChartState) (evs : List ChartEv) : List ChartState :=
  evs.scanl applyEv s

/-- The chart operations of `renderRegionalChart` (lines 262–266):
`if (regionalChartInstance) { regionalChartInstance.destroy(); }` followed by
`regionalChartInstance = new Chart(...)`. -/
def renderChartEvents (s : ChartState) : List ChartEv :=
  (if s.instanceSet then [ChartEv.destroy] else []) ++ [ChartEv.create]

/-- The chart operations of the empty-result path (line 232) and of the catch
path (line 245): `if (regionalChartInstance) regionalChartInstance.destroy()`. -/
def destroyIfSetEvents (s : ChartState) : List ChartEv :=
  if s.instanceSet then [ChartEv.destroy] else []

/-- The page invariant: every chart ever constructed was assigned to
`regionalChartInstance`, so the live count is 1 exactly when the variable
references a live chart, and 0 otherwise.  (It holds initially:
`regionalChartInstance = null`, no charts.) -/
def chartInv (s : ChartState) : Prop :=
  s.liveCharts = if s.instanceSet ∧ s.instanceLive then 1 else 0

/-! ### Treatment rendering (source lines 101–147 and 363–399) -/

/-- A record of the disease catalog, `/api/user/diseases`. -/
structure DiseaseCatalogEntry where
  name : String
  organic_treatment : Option String
  chemical_treatment : Option String
  deriving DecidableEq

/-- One rendered row of the static disease guide table. -/
structure GuideRow where
  name : String
  organic : String
  chemical : String
  deriving DecidableEq

/-- The rows rendered by `loadAllTreatments` (lines 125–135): the 'Healthy'
record is skipped, and each treatment cell is
`disease.organic_treatment || 'No specific organic treatment recorded.'`
(resp. chemical). -/
def loadAllTreatments (diseases : List DiseaseCatalogEntry) : List GuideRow :=
  (diseases.filter (fun x => decide (x.name ≠ "Healthy"))).map (fun x =>
    { name := x.name
      organic := jsOrStr x.organic_treatment "No specific organic treatment recorded."
      chemical := jsOrStr x.chemical_treatment "No specific chemical treatment recorded." })

/-- An entry of `response.top_treatments`. -/
structure TopTreatment where
  name : String
  count : ℕ
  organic : Option String
  chemical : Option String
  deriving DecidableEq

/-- One rendered action card. -/
structure Card where
  rank : ℕ
  name : String
  countText : String
  organic : String
  chemical : String
  deriving DecidableEq

/-- `${count} affected tree${count !== 1 ? 's' : ''} reported` (line 386). -/
def cardCountText (count : ℕ) : String :=
  toString count ++ " affected tree" ++ (if count ≠ 1 then "s" else "") ++ " reported"

/-- The cards rendered by `renderTopTreatments` (lines 363–399): one card per
entry, in the given order, rank = index + 1, with the same
`|| 'No specific ... treatment recorded.'` fallback as the static guide.
An empty sequence renders nothing. -/
def renderTopTreatments (topTreatments : List TopTreatment) : List Card :=
  topTreatments.enum.map (fun p =>
    { rank := p.1 + 1
      name := p.2.name
      countText := cardCountText p.2.count
      organic := jsOrStr p.2.organic "No specific organic treatment recorded."
      chemical := jsOrStr p.2.chemical "No specific chemical treatment recorded." })

/-! ### Report generation click (source lines 191–206) -/

/-- Outcome of a click on the Generate Report button. -/
inductive GenerateOutcome where
  | validation (msg : String)
  | request (endpoint : String)
  deriving DecidableEq

/-- Number of network requests each outcome issues. -/
def networkRequests : GenerateOutcome → ℕ
  | GenerateOutcome.validation _ => 0
  | GenerateOutcome.request _ => 1

/-- The generate-button handler (lines 191–206): `if (!latitude || !longitude)`
shows the validation message and returns before any network call (a JS string
is falsy exactly when it is empty); otherwise `loadRegionalStatistics` is
invoked, which issues the one statistics request (line 224). -/
def generateReportClick (latitude longitude : String) : GenerateOutcome :=
  if latitude = "" ∨ longitude = "" then
    GenerateOutcome.validation "Please enter or detect both Latitude and Longitude."
  else
    GenerateOutcome.request
      ("/api/user/regional-stats?latitude=" ++ latitude ++ "&longitude=" ++ longitude)

/-! ### The report flow (source lines 212–247, `loadRegionalStatistics`) -/

/-- The parsed statistics response; each part may be absent. -/
structure RegionalResponse where
  regional_data : Option (List (String × ℕ))
  top_treatments : Option (List TopTreatment)
  message : Option String
  deriving DecidableEq

/-- Everything painted on the success path (lines 236–238). -/
structure RenderedReport where
  chartLabels : List String
  chartData : List ℕ
  table : List Row
  tableTotal : Row
  cards : List Card
  chartEvents : List ChartEv
  deriving DecidableEq

/-- Outcome of one invocation of `loadRegionalStatistics`. -/
inductive ReportOutcome where
  | emptyResult (shownMessage : String) (chartEvents : List ChartEv)
  | rendered (r : RenderedReport)
  | fetchError (shownMessage : String) (chartEvents : List ChartEv)
  deriving DecidableEq

def ReportOutcome.isEmptyResult : ReportOutcome → Bool
  | ReportOutcome.emptyResult _ _ => true
  | _ => false

def ReportOutcome.rendersChart : ReportOutcome → Bool
  | ReportOutcome.rendered _ => true
  | _ => false

/-- `loadRegionalStatistics` (lines 212–247), given the chart state and the
result of the fetch.  `response.regional_data || {}` and
`response.top_treatments || []` default absent parts (line 227–228; an empty
object/array is itself truthy in JS, so only absence falls through); the
empty-distribution branch (lines 230–234) shows
`response.message || 'No active diseased trees found within 5km.'`, destroys
the chart if the instance variable is set, and returns without rendering; the
catch branch (lines 242–246) shows the failure text and likewise destroys the
chart.  Otherwise chart, table and cards are rendered. -/
def loadRegionalStatistics (s : ChartState)
    (result : Except String RegionalResponse) : ReportOutcome :=
  match result with
  | Except.error e =>
      ReportOutcome.fetchError ("Failed to load regional data: " ++ e) (destroyIfSetEvents s)
  | Except.ok response =>
      let regionalData := response.regional_data.getD []
      let topTreatments := response.top_treatments.getD []
      if regionalData = [] then
        ReportOutcome.emptyResult
          (jsOrStr response.message "No active diseased trees found within 5km.")
          (destroyIfSetEvents s)
      else
        ReportOutcome.rendered
          { chartLabels := regionalData.map Prod.fst
            chartData := regionalData.map Prod.snd
            table := renderSummaryTable regionalData
            tableTotal := totalRow regionalData
            cards := renderTopTreatments topTreatments
            chartEvents := renderChartEvents s }

/-! ### Specification-side definitions (for refinement comparisons) -/

/-- The percentage the specification prescribes for a count within a
distribution: the count divided by the sum of all counts, times 100, rounded
to one decimal place — expressed as a number of tenths. -/
def specPctTenths (count : ℕ) (counts : List ℕ) : ℤ :=
  round ((count : ℚ) / (counts.sum : ℚ) * 100 * 10)

/-- The severity color the specification prescribes for a lookup result:
rank 3 red, rank 2 orange, ranks 1 and 0 green, unmapped green/default. -/
def specSeverityColor : Option ℕ → String
  | Option.some 3 => "red"
  | Option.some 2 => "orange"
  | Option.some _ => "green"
  | Option.none => "green"

/-! ## Claim theorems -/

/-- C1 counterexample: the claim fails on the code. 'Healthy' is mapped in the
Severity Index with rank 0, yet its summary-table severity cell renders "N/A"
rather than the integer rank (`0 || 'N/A'` takes the fallback, since the
number 0 is falsy), so "N/A" is not displayed exactly for unmapped diseases. -/
theorem C1_counterexample :
    sevLookup "Healthy" = Option.some 0 ∧ sevCellText "Healthy" = "N/A" ∧
      ("N/A" : String) ≠ "0" :=
  ⟨by decide, by decide, by decide⟩

/-- C1 (amended): each summary-table row displays the integer severity rank
exactly when the disease is mapped to a nonzero rank; it displays "N/A" when
the disease is unmapped or mapped to rank 0 (in particular, 'Healthy' displays
"N/A"). -/
theorem C1_amended (d : String) :
    (sevValue d = SevDisplay.na ↔
      sevLookup d = Option.none ∨ sevLookup d = Option.some 0) ∧
    (∀ n, sevLookup d = Option.some n → n ≠ 0 →
      sevValue d = SevDisplay.num n ∧ sevCellText d = toString n) := by
  constructor
  · unfold sevValue
    cases h : sevLookup d with
    | none => simp
    | some n =>
        by_cases hn : n = 0 <;> simp [hn]
  · intro n hn hnz
    unfold sevCellText sevValue
    rw [hn]
    simp [hnz]

/-- Witness for C1 (amended) at the mapped disease 'Anthracnose' (rank 3). -/
theorem C1_amended_witness :
    sevValue "Anthracnose" = SevDisplay.num 3 ∧ sevCellText "Anthracnose" = "3" :=
  (C1_amended "Anthracnose").2 3 (by decide) (by decide)

/-- C2 counterexample: the claim fails on the code. A farm whose latitude is
present but equal to 0 (a point on the equator) carries both coordinates, yet
`f.latitude && f.longitude` is falsy, so the farm is excluded from the
dropdown. -/
theorem C2_counterexample :
    loadFarmLocations
        [{ farm_name := "F", latitude := Option.some 0, longitude := Option.some 10 }] = [] ∧
    (Option.some (0 : ℚ)).isSome = true ∧ (Option.some (10 : ℚ)).isSome = true :=
  ⟨by decide, rfl, rfl⟩

/-- C2 (amended): a farm returned by the saved-locations API is included in
the selection dropdown iff both its latitude and its longitude are truthy,
i.e. present and nonzero; absence of either coordinate excludes the entry, and
so does a present coordinate equal to 0. -/
theorem C2_amended (farms : List Farm) (f : Farm) :
    f ∈ loadFarmLocations farms ↔
      f ∈ farms ∧ truthyNum f.latitude = true ∧ truthyNum f.longitude = true := by
  simp [loadFarmLocations, List.mem_filter, Bool.and_eq_true]

/-- C3 counterexample: the claim fails on the code. For the distribution
A, B, C each with count 1, every displayed percentage is "33.3%", so the
displayed percentages sum to 99.9, not 100.0 (999 tenths, not 1000). -/
theorem C3_counterexample :
    (renderSummaryTable [("A", 1), ("B", 1), ("C", 1)]).map Row.percentage =
      ["33.3%", "33.3%", "33.3%"] ∧
    ([1, 1, 1].map (fun c => toFixed1Tenths (pctValue c 3))).sum = 999 ∧
    (999 : ℤ) ≠ 1000 := by
  have h3 : toFixed1Tenths (pctValue 1 3) = 333 := by
    norm_num [toFixed1Tenths, pctValue, round_eq]
  refine ⟨?_, ?_, by decide⟩
  · have hp : pctString 1 3 = "33.3%" := by
      rw [pctString, if_pos (by norm_num), h3]
      decide
    simp [renderSummaryTable, sortedEntries, insertDesc, hp]
  · simp [h3]

/-- C3 (amended): with a positive total, each displayed percentage — the chart
tooltip's and each summary-table row's — equals that disease's count divided by
the sum of all counts, times 100, rounded to one decimal place; but the sum of
the displayed percentages need not be 100.0, and the table's trailing TOTAL row
shows the fixed literal "100.0%" regardless. -/
theorem C3_amended (count : ℕ) (counts : List ℕ) (d : List (String × ℕ))
    (h1 : 0 < counts.sum) (h2 : 0 < (d.map Prod.snd).sum) :
    tooltipPctString count counts = tenthsToString (specPctTenths count counts) ++ "%" ∧
    (∀ r ∈ renderSummaryTable d,
      r.percentage = tenthsToString (specPctTenths r.count (d.map Prod.snd)) ++ "%") ∧
    (totalRow d).percentage = "100.0%" := by
  have key : ∀ c t : ℕ, 0 < t →
      tenthsToString (toFixed1Tenths (pctValue c t)) ++ "%" =
        tenthsToString (round ((c : ℚ) / (t : ℚ) * 100 * 10)) ++ "%" := by
    intro c t _
    rw [toFixed1Tenths, pctValue]
  refine ⟨?_, ?_, rfl⟩
  · rw [tooltipPctString, specPctTenths]
    simp only [if_pos h1]
    exact key count counts.sum h1
  · intro r hr
    rcases List.mem_map.mp hr with ⟨e, he, rfl⟩
    simp only [specPctTenths]
    rw [pctString, if_pos h2]
    exact key e.2 ((d.map Prod.snd).sum) h2

/-- Witness for C3 (amended) at the distribution A ↦ 1, B ↦ 1. -/
theorem C3_amended_witness :
    tooltipPctString 1 [1, 1] = tenthsToString (specPctTenths 1 [1, 1]) ++ "%" ∧
    (∀ r ∈ renderSummaryTable [("A", 1), ("B", 1)],
      r.percentage =
        tenthsToString (specPctTenths r.count ([("A", 1), ("B", 1)].map Prod.snd)) ++ "%") ∧
    (totalRow [("A", 1), ("B", 1)]).percentage = "100.0%" :=
  C3_amended 1 [1, 1] [("A", 1), ("B", 1)] (by decide) (by decide)

/-- C4 counterexample: the claim fails on the code. For the non-empty all-zero
distribution A ↦ 0 (total = 0), the flow does not short-circuit to the
empty-result message: the distribution mapping has a key, so a chart is
rendered (albeit with the row displaying "0%"). -/
theorem C4_counterexample :
    (loadRegionalStatistics ⟨false, false, 0⟩
      (Except.ok ⟨Option.some [("A", 0)], Option.none, Option.none⟩)).rendersChart = true ∧
    (loadRegionalStatistics ⟨false, false, 0⟩
      (Except.ok ⟨Option.some [("A", 0)], Option.none, Option.none⟩)).isEmptyResult = false ∧
    (renderSummaryTable [("A", 0)]).map Row.percentage = ["0%"] := by
  refine ⟨?_, ?_, ?_⟩ <;>
    simp [loadRegionalStatistics, ReportOutcome.rendersChart, ReportOutcome.isEmptyResult,
      renderSummaryTable, sortedEntries, insertDesc, pctString]

/-- C4 (amended): for every non-empty distribution whose counts are all zero,
the summary table renders "0%" for every disease row; but the report flow does
not short-circuit — the empty-result branch is taken exactly when the
distribution mapping has no keys, so an all-zero non-empty distribution still
renders a chart. -/
theorem C4_amended (s : ChartState) (d : List (String × ℕ))
    (tt : Option (List TopTreatment)) (msg : Option String)
    (hne : d ≠ []) (hz : ∀ p ∈ d, p.2 = 0) :
    (∀ r ∈ renderSummaryTable d, r.percentage = "0%") ∧
    (loadRegionalStatistics s (Except.ok ⟨Option.some d, tt, msg⟩)).rendersChart = true ∧
    (loadRegionalStatistics s (Except.ok ⟨Option.some d, tt, msg⟩)).isEmptyResult = false := by
  have hsum : (d.map Prod.snd).sum = 0 := by
    rw [List.sum_eq_zero_iff]
    intro x hx
    rcases List.mem_map.mp hx with ⟨p, hp, rfl⟩
    exact hz p hp
  refine ⟨?_, ?_, ?_⟩
  · intro r hr
    rcases List.mem_map.mp hr with ⟨e, _, rfl⟩
    simp [pctString, hsum]
  · simp [loadRegionalStatistics, hne, ReportOutcome.rendersChart]
  · simp [loadRegionalStatistics, hne, ReportOutcome.isEmptyResult]

/-- Witness for C4 (amended) at the single-entry all-zero distribution A ↦ 0. -/
theorem C4_amended_witness :
    (∀ r ∈ renderSummaryTable [("A", 0)], r.percentage = "0%") ∧
    (loadRegionalStatistics ⟨true, true, 1⟩
      (Except.ok ⟨Option.some [("A", 0)], Option.none, Option.none⟩)).rendersChart = true ∧
    (loadRegionalStatistics ⟨true, true, 1⟩
      (Except.ok ⟨Option.some [("A", 0)], Option.none, Option.none⟩)).isEmptyResult = false :=
  C4_amended ⟨true, true, 1⟩ [("A", 0)] Option.none Option.none (by decide) (by decide)

/-- C5: at most one chart instance exists at any time. From any page state
satisfying the chart invariant, every state passed through while executing
`renderRegionalChart`'s chart operations — and while executing the destroy-only
operations of the empty-result and fetch-failure paths — has at most one live
chart; when an instance exists the render path destroys it before constructing
the new chart; and both event sequences re-establish the invariant, so the
property is preserved across arbitrarily many re-renders. -/
theorem C5_single_chart_instance (s : ChartState) (h : chartInv s) :
    (∀ s' ∈ runStates s (renderChartEvents s), s'.liveCharts ≤ 1) ∧
    (∀ s' ∈ runStates s (destroyIfSetEvents s), s'.liveCharts ≤ 1) ∧
    (s.instanceSet = true → renderChartEvents s = [ChartEv.destroy, ChartEv.create]) ∧
    chartInv ((renderChartEvents s).foldl applyEv s) ∧
    chartInv ((destroyIfSetEvents s).foldl applyEv s) := by
  obtain ⟨iset, ilive, n⟩ := s
  unfold chartInv at h
  cases iset <;> cases ilive <;> simp only [] at h <;> simp at h <;> subst h <;>
    simp [runStates, renderChartEvents, destroyIfSetEvents, applyEv, destroyStep,
      createStep, chartInv, List.scanl]

/-- Witness for C5 at the state where a live chart is displayed. -/
theorem C5_witness :
    (∀ s' ∈ runStates ⟨true, true, 1⟩ (renderChartEvents ⟨true, true, 1⟩),
      s'.liveCharts ≤ 1) ∧
    (∀ s' ∈ runStates ⟨true, true, 1⟩ (destroyIfSetEvents ⟨true, true, 1⟩),
      s'.liveCharts ≤ 1) ∧
    (ChartState.instanceSet ⟨true, true, 1⟩ = true →
      renderChartEvents ⟨true, true, 1⟩ = [ChartEv.destroy, ChartEv.create]) ∧
    chartInv ((renderChartEvents ⟨true, true, 1⟩).foldl applyEv ⟨true, true, 1⟩) ∧
    chartInv ((destroyIfSetEvents ⟨true, true, 1⟩).foldl applyEv ⟨true, true, 1⟩) :=
  C5_single_chart_instance ⟨true, true, 1⟩ (by simp [chartInv])

/-- C6: the generate-report click issues zero network requests and shows the
validation message exactly when the latitude or longitude field is empty, and
issues the single statistics request exactly when both fields are non-empty. -/
theorem C6_validation_gate (lat lon : String) :
    (generateReportClick lat lon =
        GenerateOutcome.validation "Please enter or detect both Latitude and Longitude." ∧
      networkRequests (generateReportClick lat lon) = 0 ↔ lat = "" ∨ lon = "") ∧
    ((∃ ep, generateReportClick lat lon = GenerateOutcome.request ep) ↔
      lat ≠ "" ∧ lon ≠ "") := by
  unfold generateReportClick
  by_cases h : lat = "" ∨ lon = ""
  · rw [if_pos h]
    refine ⟨⟨fun _ => h, fun _ => ⟨rfl, rfl⟩⟩, ?_, ?_⟩
    · rintro ⟨ep, hep⟩
      simp at hep
    · rintro ⟨h1, h2⟩
      rcases h with h | h
      · exact absurd h h1
      · exact absurd h h2
  · rw [if_neg h]
    push_neg at h
    refine ⟨⟨?_, ?_⟩, fun _ => h, fun _ => ⟨_, rfl⟩⟩
    · rintro ⟨hc, _⟩
      simp at hc
    · intro hc
      rcases hc with hc | hc
      · exact absurd hc h.1
      · exact absurd hc h.2

/-- Witness for C6 at an empty latitude field: the validation message is shown
and zero network requests are issued. -/
theorem C6_witness :
    generateReportClick "" "77.5" =
        GenerateOutcome.validation "Please enter or detect both Latitude and Longitude." ∧
      networkRequests (generateReportClick "" "77.5") = 0 :=
  ((C6_validation_gate "" "77.5").1).mpr (Or.inl rfl)

/-- C7 counterexample: the claim fails on the code. For an empty distribution
with a present-but-empty server message (`message: ""`), the flow does not show
the server-supplied message: the empty string is falsy, so the default text is
shown instead. -/
theorem C7_counterexample :
    loadRegionalStatistics ⟨true, true, 1⟩
        (Except.ok ⟨Option.some [], Option.none, Option.some ""⟩) =
      ReportOutcome.emptyResult "No active diseased trees found within 5km."
        [ChartEv.destroy] ∧
    ("" : String) ≠ "No active diseased trees found within 5km." := by
  refine ⟨?_, by decide⟩
  simp [loadRegionalStatistics, jsOrStr, destroyIfSetEvents]

/-- C7 (amended): for every response whose distribution mapping is empty, the
flow reaches the empty-result outcome — no chart, summary table or treatment
cards are rendered, and it is not the fetch-error path — showing the
server-supplied message when it is present and non-empty and the default
'no active diseased trees' message otherwise, and destroying the existing
chart instance exactly when one exists. -/
theorem C7_amended (s : ChartState) (resp : RegionalResponse)
    (h : resp.regional_data.getD [] = []) :
    loadRegionalStatistics s (Except.ok resp) =
      ReportOutcome.emptyResult
        (jsOrStr resp.message "No active diseased trees found within 5km.")
        (destroyIfSetEvents s) ∧
    (∀ m, resp.message = Option.some m → m ≠ "" →
      jsOrStr resp.message "No active diseased trees found within 5km." = m) ∧
    ((resp.message = Option.none ∨ resp.message = Option.some "") →
      jsOrStr resp.message "No active diseased trees found within 5km." =
        "No active diseased trees found within 5km.") ∧
    destroyIfSetEvents s = (if s.instanceSet then [ChartEv.destroy] else []) ∧
    (loadRegionalStatistics s (Except.ok resp)).rendersChart = false := by
  have hout : loadRegionalStatistics s (Except.ok resp) =
      ReportOutcome.emptyResult
        (jsOrStr resp.message "No active diseased trees found within 5km.")
        (destroyIfSetEvents s) := by
    simp [loadRegionalStatistics, h]
  refine ⟨hout, ?_, ?_, rfl, ?_⟩
  · intro m hm hne
    simp [jsOrStr, hm, hne]
  · rintro (hm | hm) <;> simp [jsOrStr, hm]
  · rw [hout]
    rfl

/-- Witness for C7 (amended): empty distribution, non-empty server message,
live chart present. -/
theorem C7_amended_witness :
    loadRegionalStatistics ⟨true, true, 1⟩
        (Except.ok ⟨Option.some [], Option.none, Option.some "No reports nearby."⟩) =
      ReportOutcome.emptyResult
        (jsOrStr (Option.some "No reports nearby.")
          "No active diseased trees found within 5km.")
        (destroyIfSetEvents ⟨true, true, 1⟩) ∧
    (∀ m, (Option.some "No reports nearby." : Option String) = Option.some m → m ≠ "" →
      jsOrStr (Option.some "No reports nearby.")
        "No active diseased trees found within 5km." = m) ∧
    (((Option.some "No reports nearby." : Option String) = Option.none ∨
        (Option.some "No reports nearby." : Option String) = Option.some "") →
      jsOrStr (Option.some "No reports nearby.")
        "No active diseased trees found within 5km." =
        "No active diseased trees found within 5km.") ∧
    destroyIfSetEvents ⟨true, true, 1⟩ =
      (if ChartState.instanceSet ⟨true, true, 1⟩ then [ChartEv.destroy] else []) ∧
    (loadRegionalStatistics ⟨true, true, 1⟩
      (Except.ok ⟨Option.some [], Option.none,
        Option.some "No reports nearby."⟩)).rendersChart = false :=
  C7_amended ⟨true, true, 1⟩
    ⟨Option.some [], Option.none, Option.some "No reports nearby."⟩ (by decide)

/-- C8: the summary-table body rows are sorted in descending order of
affected-tree count, they are a permutation of the distribution's entries, and
the example distribution A ↦ 5, B ↦ 12, C ↦ 1 renders rows in the order
B, A, C. -/
theorem C8_rows_sorted_desc (d : List (String × ℕ)) :
    ((renderSummaryTable d).map Row.count).Pairwise (fun a b => b ≤ a) ∧
    List.Perm ((renderSummaryTable d).map (fun r => (r.disease, r.count))) d ∧
    (renderSummaryTable [("A", 5), ("B", 12), ("C", 1)]).map Row.disease =
      ["B", "A", "C"] := by
  refine ⟨?_, ?_, ?_⟩
  · have hp := sortedEntries_pairwise d
    rw [renderSummaryTable]
    simp only [List.map_map]
    rw [List.pairwise_map]
    exact hp
  · have hperm := sortedEntries_perm d
    rw [renderSummaryTable]
    simp only [List.map_map]
    have : ((fun r => (r.disease, r.count)) ∘ fun e : String × ℕ =>
        ({ disease := e.1, count := e.2,
           percentage := pctString e.2 ((d.map Prod.snd).sum),
           severityText := sevCellText e.1,
           color := severityColor (sevValue e.1) } : Row)) = id := by
      funext e
      rfl
    rw [this, List.map_id]
    exact hperm
  · simp [renderSummaryTable, sortedEntries, insertDesc]

/-- C9: the summary-table severity color is a pure function of the displayed
severity value, and it maps the ranks exactly as claimed — rank 3 red, rank 2
orange, ranks 1 and 0 green — while an unmapped disease is displayed "N/A" and
styled green (neither red nor orange). -/
theorem C9_severity_color (d : String) :
    severityColor (sevValue d) = specSeverityColor (sevLookup d) ∧
    (sevLookup d = Option.none →
      sevCellText d = "N/A" ∧ severityColor (sevValue d) = "green") := by
  constructor
  · cases h : sevLookup d with
    | none => simp [sevValue, h, severityColor, specSeverityColor]
    | some n =>
        have hb := sevLookup_le_three d n h
        interval_cases n <;> simp [sevValue, h, severityColor, specSeverityColor]
  · intro h
    simp [sevCellText, sevValue, h, severityColor]

/-- Witness for C9 at an unmapped disease name. -/
theorem C9_witness :
    sevCellText "Rust" = "N/A" ∧ severityColor (sevValue "Rust") = "green" :=
  (C9_severity_color "Rust").2 (by decide)

/-- C10: in both the static disease guide and the top-treatment cards, an
empty-string treatment field is rendered exactly like an absent one — the empty
string is falsy, so `||` substitutes the 'no specific ... treatment recorded'
placeholder, making the two indistinguishable in the rendered output. -/
theorem C10_falsy_treatment_placeholder (name : String) (count : ℕ)
    (o c : Option String) :
    loadAllTreatments [⟨name, Option.some "", c⟩] =
      loadAllTreatments [⟨name, Option.none, c⟩] ∧
    loadAllTreatments [⟨name, o, Option.some ""⟩] =
      loadAllTreatments [⟨name, o, Option.none⟩] ∧
    renderTopTreatments [⟨name, count, Option.some "", c⟩] =
      renderTopTreatments [⟨name, count, Option.none, c⟩] ∧
    renderTopTreatments [⟨name, count, o, Option.some ""⟩] =
      renderTopTreatments [⟨name, count, o, Option.none⟩] ∧
    jsOrStr (Option.some "") "No specific organic treatment recorded." =
      "No specific organic treatment recorded." ∧
    jsOrStr Option.none "No specific chemical treatment recorded." =
      "No specific chemical treatment recorded." := by
  refine ⟨?_, ?_, ?_, ?_, rfl, rfl⟩ <;>
    by_cases hn : name = "Healthy" <;>
    simp [loadAllTreatments, renderTopTreatments, jsOrStr, List.filter, hn]

end RegionalReport
